import Mathlib

/-!
Verification of the marketing-data-assistant extraction scripts.

This file gives a shallow embedding of the two Python source files

  * `src/analytics/scripts/facebook_ads_full_pull.py`
    (`paginate`, `pull_metadata`, `pull_insights`, `save_dataframe`, `main`), and
  * `src/analytics/scripts/facebook_ads_pull.py`
    (`fetch_ads` with its inline pagination/retry loop and record flattener),

and proves properties about the embedded definitions.  JSON values are
modelled by the inductive `JVal`; Python's `None` and JSON `null` are both
`JVal.null` (Python's `dict.get` returns `None` for a missing key, which is
what `kvGet` mirrors).  The HTTP transport is modelled by a scripted list of
per-request outcomes (`FetchResult`), consumed one element per GET request.
-/

/-- JSON-ish values as produced by `resp.json()`: null, booleans, numbers,
strings, arrays and objects.  Objects keep their key/value pairs in order;
Python dict keys are unique, so first-match lookup is dict lookup. -/
inductive JVal where
  | null
  | bool (b : Bool)
  | num (n : Int)
  | str (s : String)
  | arr (xs : List JVal)
  | obj (kvs : List (String × JVal))

/-- Python truthiness of a JSON value (`if x:` / `x or y`):
`None`, `False`, `0`, `""`, `[]` and `{}` are falsy, everything else truthy. -/
def JVal.truthy : JVal → Bool
  | .null => false
  | .bool b => b
  | .num n => n != 0
  | .str s => s != ""
  | .arr xs => !xs.isEmpty
  | .obj kvs => !kvs.isEmpty

/-- Whether a value is a Python mapping (a JSON object). -/
def isObj : JVal → Bool
  | .obj _ => true
  | _ => false

/-- Python `d.get(key, default)` on an object's key/value list. -/
def kvGetD : List (String × JVal) → String → JVal → JVal
  | [], _, d => d
  | (k, v) :: rest, key, d => if key = k then v else kvGetD rest key d

/-- Python `d.get(key)` (default `None`). -/
def kvGet (kvs : List (String × JVal)) (key : String) : JVal :=
  kvGetD kvs key .null

/-- Python `for x in v`: lists iterate their elements, strings iterate their
characters (as one-character strings), dicts iterate their keys; other
values are not iterable (`TypeError`). -/
def pyIter : JVal → Option (List JVal)
  | .arr xs => some xs
  | .str s => some (s.data.map (fun c => .str (String.mk [c])))
  | .obj kvs => some (kvs.map (fun p => .str p.1))
  | _ => none

/-- Sequence a fallible step over a list, failing if any element fails
(a Python loop whose body may raise: one raise loses the whole result). -/
def mapOpt {α β : Type} (f : α → Option β) : List α → Option (List β)
  | [] => some []
  | x :: xs =>
    match f x, mapOpt f xs with
    | some y, some ys => some (y :: ys)
    | _, _ => none

/-- One HTTP response: status code, decoded JSON body (`none` when the body
is not decodable as JSON) and the raw response text. -/
structure HttpResponse where
  status : Nat
  body : Option JVal
  text : String

/-- The scripted outcome of one GET request: either a transport-level
failure (connection error, timeout, DNS — `requests.exceptions.RequestException`)
or a response from the server. -/
inductive FetchResult where
  | transportError (msg : String)
  | response (r : HttpResponse)

/-! ## The record flattener of `facebook_ads_pull.fetch_ads` (lines 45-68) -/

/-- One flat output record: the dict literal appended to `rows`. -/
abbrev Row := List (String × JVal)

/-- The fixed field-name set of every row built by `fetch_ads`, in the
order of the dict literal at lines 49-68. -/
def rowFields : List String :=
  ["date_start", "date_stop", "ad_id", "ad_name", "adset_id", "adset_name",
   "campaign_id", "campaign_name", "headline", "body", "impressions", "reach",
   "clicks", "unique_clicks", "spend", "cpc", "ctr", "cpm"]

/-- The insight-derived fields of a row (taken from one element `i` of the
insights data list). -/
def insightKeys : List String :=
  ["date_start", "date_stop", "impressions", "reach", "clicks",
   "unique_clicks", "spend", "cpc", "ctr", "cpm"]

/-- The row dict literal of `fetch_ads` (lines 49-68), given the key/value
lists of the insight element `i`, the ad object and the creative object. -/
def mkRowObj (ik ak ck : List (String × JVal)) : Row :=
  [("date_start", kvGet ik "date_start"),
   ("date_stop", kvGet ik "date_stop"),
   ("ad_id", kvGet ak "ad_id"),
   ("ad_name", kvGet ak "name"),
   ("adset_id", kvGet ak "adset_id"),
   ("adset_name", kvGet ak "adset_name"),
   ("campaign_id", kvGet ak "campaign_id"),
   ("campaign_name", kvGet ak "campaign_name"),
   ("headline", kvGet ck "title"),
   ("body", kvGet ck "body"),
   ("impressions", kvGet ik "impressions"),
   ("reach", kvGet ik "reach"),
   ("clicks", kvGet ik "clicks"),
   ("unique_clicks", kvGet ik "unique_clicks"),
   ("spend", kvGet ik "spend"),
   ("cpc", kvGet ik "cpc"),
   ("ctr", kvGet ik "ctr"),
   ("cpm", kvGet ik "cpm")]

/-- Build one row from insight element `i`, the ad and the resolved creative.
Every `.get` in the dict literal requires its receiver to be a mapping;
a non-mapping receiver is an `AttributeError` (`none`). -/
def mkRow (i ad creative : JVal) : Option Row :=
  match i, ad, creative with
  | .obj ik, .obj ak, .obj ck => some (mkRowObj ik ak ck)
  | _, _, _ => none

/-- The per-ad flattening of `fetch_ads` (lines 45-68):

    insights = (ad.get("insights") or {}).get("data") or [{}]
    creative = ad.get("creative") or {}
    for i in insights: rows.append({ ... })

`none` models an uncaught exception (`AttributeError`/`TypeError`) while
flattening this ad. -/
def flattenAd (ad : JVal) : Option (List Row) :=
  match ad with
  | .obj ak =>
    match (if (kvGet ak "insights").truthy then kvGet ak "insights" else .obj []) with
    | .obj ik =>
      match pyIter (if (kvGet ik "data").truthy then kvGet ik "data" else .arr [.obj []]) with
      | some items =>
        mapOpt
          (fun i =>
            mkRow i (.obj ak)
              (if (kvGet ak "creative").truthy then kvGet ak "creative" else .obj []))
          items
      | none => none
    | _ => none
  | _ => none

/-! ## The cursor paginator of `facebook_ads_full_pull.paginate` (lines 28-72) -/

/-- Is a decoded error code the documented numeric code 100
(`if error_code == 100:` at line 62)? -/
def isCode100 : JVal → Bool
  | .num n => n == 100
  | _ => false

/-- Failure classification surfaced by `paginate`. -/
inductive PagError where
  /-- `requests.exceptions.HTTPError` re-raised at line 69: the exception
  carries the response's status code, the best-effort decoded
  `error` payload (`{}` when the body is not JSON) and the raw text; the
  `hint100` flag records whether the code-100 hint branch was taken. -/
  | remoteRejected (status : Nat) (details : JVal) (hint100 : Bool) (text : String)
  /-- `requests.exceptions.RequestException` re-raised at line 72
  (transport-level failure). -/
  | requestError (msg : String)
  /-- a 2xx body that is not decodable as JSON
  (`resp.json()` raising, surfaced through the `RequestException` branch). -/
  | malformedBody
  /-- an uncaught `AttributeError`/`TypeError` escaping the generator. -/
  | pythonError (msg : String)
  /-- model artifact: the scripted server ran out of responses. -/
  | noMoreResponses

/-- Whether a classified paginate failure is the `HTTPError` re-raise. -/
def PagError.isRemoteRejected : PagError → Bool
  | .remoteRejected _ _ _ _ => true
  | _ => false

/-- The `except requests.exceptions.HTTPError` handler of `paginate`
(lines 49-69): decode the error body best-effort
(`e.response.json().get("error", {})`, with `{}` on a JSON decode failure),
read its `code`, take the code-100 hint branch iff the code equals 100, and
re-raise the `HTTPError`.  A body that decodes to a non-mapping, or an
`error` member that is a present non-mapping, makes `.get` itself raise
`AttributeError`. -/
def classifyHttpError (r : HttpResponse) : PagError :=
  match r.body with
  | none => .remoteRejected r.status (.obj []) false r.text
  | some (.obj kvs) =>
    match kvGetD kvs "error" (.obj []) with
    | .obj dk => .remoteRejected r.status (.obj dk) (isCode100 (kvGet dk "code")) r.text
    | _ => .pythonError "AttributeError"
  | some _ => .pythonError "AttributeError"

/-- What one loop iteration of `paginate` does with one response. -/
inductive PagStep where
  /-- an exception before anything of this page is yielded -/
  | fail (e : PagError)
  /-- records yielded, then the loop ends (no truthy `paging.next`), or an
  exception right after yielding (`err` non-`none`) -/
  | emitStop (recs : List JVal) (err : Option PagError)
  /-- records yielded and a truthy `paging.next` found: continue -/
  | emitNext (recs : List JVal)

/-- The body of `paginate`'s `while True` loop (lines 35-47) applied to one
response: `raise_for_status` (4xx/5xx only), `resp.json()`,
`yield from payload.get("data", [])`, then
`payload.get("paging", {}).get("next")` with a truthiness test. -/
def pageStep (r : HttpResponse) : PagStep :=
  if 400 ≤ r.status ∧ r.status < 600 then .fail (classifyHttpError r)
  else
    match r.body with
    | none => .fail .malformedBody
    | some (.obj kvs) =>
      match pyIter (kvGetD kvs "data" (.arr [])) with
      | none => .fail (.pythonError "TypeError")
      | some recs =>
        match kvGetD kvs "paging" (.obj []) with
        | .obj pk =>
          if (kvGet pk "next").truthy then .emitNext recs
          else .emitStop recs none
        | _ => .emitStop recs (some (.pythonError "AttributeError"))
    | some _ => .fail (.pythonError "AttributeError")

/-- The observable result of running `paginate` to completion (the generator
fully consumed by `list(...)`): records yielded in order, number of GET
requests issued, the trace of `time.sleep` calls made (in milliseconds), and
the failure that ended the iteration (`none` for clean termination). -/
structure PagResult where
  records : List JVal
  requests : Nat
  sleepsMs : List Nat
  error : Option PagError


/-- Run `paginate` against a scripted server: each loop iteration issues one
GET request, consuming one `FetchResult`.  The loop body contains no
`time.sleep`, so no iteration contributes to `sleepsMs`. -/
def paginateRun : List FetchResult → PagResult
  | [] => ⟨[], 0, [], some .noMoreResponses⟩
  | .transportError m :: _ => ⟨[], 1, [], some (.requestError m)⟩
  | .response r :: rest =>
    match pageStep r with
    | .fail e => ⟨[], 1, [], some e⟩
    | .emitStop recs e => ⟨recs, 1, [], e⟩
    | .emitNext recs =>
      let sub := paginateRun rest
      ⟨recs ++ sub.records, sub.requests + 1, sub.sleepsMs, sub.error⟩

/-! ## The pagination/retry loop of `facebook_ads_pull.fetch_ads` (lines 37-69) -/

/-- How a run of `fetch_ads`'s `while next_url` loop ends. -/
inductive FAOutcome where
  /-- clean termination: the last page had no truthy `paging.next` -/
  | ok
  /-- `_fail(...)` → `sys.exit(code)` after the retry budget is exhausted -/
  | exited (code : Nat)
  /-- an uncaught transport-level `RequestException` from `requests.get` -/
  | raisedTransport (msg : String)
  /-- an uncaught decode failure of `r.json()` -/
  | raisedDecode
  /-- an uncaught `AttributeError`/`TypeError` while flattening or paging -/
  | raisedPython (msg : String)
  /-- model artifact: the scripted server ran out of responses -/
  | noResponse


/-- The observable result of `fetch_ads`'s loop: flat rows collected,
number of GET requests issued, the trace of `time.sleep` calls (in seconds)
and how the loop ended. -/
structure FAResult where
  rows : List Row
  requests : Nat
  sleepsSec : List Nat
  outcome : FAOutcome


/-- What one non-error response does inside `fetch_ads`'s loop. -/
inductive FAStep where
  | fail (o : FAOutcome)
  | emitStop (rows : List Row)
  | emitNext (rows : List Row)

/-- The success-path body of `fetch_ads`'s loop (lines 44-69): decode the
body, flatten every ad of `payload.get("data", [])`, then read
`(payload.get("paging") or {}).get("next")` and loop while it is truthy. -/
def faPage (r : HttpResponse) : FAStep :=
  match r.body with
  | none => .fail .raisedDecode
  | some (.obj kvs) =>
    match pyIter (kvGetD kvs "data" (.arr [])) with
    | none => .fail (.raisedPython "TypeError")
    | some ads =>
      match mapOpt flattenAd ads with
      | none => .fail (.raisedPython "AttributeError")
      | some rowss =>
        match (if (kvGet kvs "paging").truthy then kvGet kvs "paging" else .obj []) with
        | .obj pk =>
          if (kvGet pk "next").truthy then .emitNext rowss.flatten
          else .emitStop rowss.flatten
        | _ => .fail (.raisedPython "AttributeError")
  | some _ => .fail (.raisedPython "AttributeError")

/-- Run `fetch_ads`'s loop against a scripted server.  `tries` is the global
failure counter (line 37: `tries=0`, never reset after a success).  A
response with `status_code >= 400` bumps `tries`; while `tries <= 3` the
loop sleeps `2*tries` seconds and re-enters (`continue`), issuing another
request; on the fourth failure `_fail` exits with code 1.  A transport
error from `requests.get` is not caught at all. -/
def fetchAdsGo : Nat → List FetchResult → FAResult
  | _, [] => ⟨[], 0, [], .noResponse⟩
  | _, .transportError m :: _ => ⟨[], 1, [], .raisedTransport m⟩
  | tries, .response r :: rest =>
    if 400 ≤ r.status then
      if tries + 1 ≤ 3 then
        let sub := fetchAdsGo (tries + 1) rest
        ⟨sub.rows, sub.requests + 1, 2 * (tries + 1) :: sub.sleepsSec, sub.outcome⟩
      else ⟨[], 1, [], .exited 1⟩
    else
      match faPage r with
      | .fail o => ⟨[], 1, [], o⟩
      | .emitStop rows => ⟨rows, 1, [], .ok⟩
      | .emitNext rows =>
        let sub := fetchAdsGo tries rest
        ⟨rows ++ sub.rows, sub.requests + 1, sub.sleepsSec, sub.outcome⟩

/-- `fetch_ads` starts with `tries = 0`. -/
def fetchAdsRun (srv : List FetchResult) : FAResult :=
  fetchAdsGo 0 srv

/-! ## Scripted well-formed page servers -/

/-- The wire shape of one page: a `data` array, plus `paging.next` when the
page continues. -/
def pageObj (recs : List JVal) (next : Option String) : JVal :=
  .obj (("data", .arr recs) ::
    (match next with
     | some u => [("paging", .obj [("next", .str u)])]
     | none => []))

/-- A continuation locator (opaque; only its truthiness matters). -/
def nextUrl : String := "https://graph.facebook.com/v20.0/next"

/-- A successful (HTTP 200) page response. -/
def okPage (recs : List JVal) (next : Option String) : FetchResult :=
  .response ⟨200, some (pageObj recs next), ""⟩

/-- A server serving the given pages in order, each non-terminal page with a
continuation reference and the last page with none. -/
def serverOfPages : List (List JVal) → List FetchResult
  | [] => []
  | p :: rest =>
    okPage p (if rest.isEmpty then none else some nextUrl) :: serverOfPages rest

/-- A server of pages that all carry a continuation reference (so the
pagination keeps going past them). -/
def serverChain (pages : List (List JVal)) : List FetchResult :=
  pages.map (fun p => okPage p (some nextUrl))

/-! ## The orchestrator of `facebook_ads_full_pull.main` (lines 130-171) -/

/-- The per-job outcome a run of `main` records on the console. -/
inductive JobReport where
  /-- `save_dataframe` wrote `rows` rows to `file` -/
  | wrote (rows : Nat) (file : String)
  /-- `save_dataframe` saw an empty frame: no data returned, file not created -/
  | noData (file : String)
  /-- the `except Exception` block of that report ran: FAILED with the cause -/
  | failed (msg : String)


/-- The row count a job report stands for: `wrote n` reports
`Wrote n rows`, `noData` is a completed extraction of zero rows, and a
failed job has no row count at all. -/
def JobReport.reportedRows : JobReport → Option Nat
  | .wrote n _ => some n
  | .noData _ => some 0
  | .failed _ => none

/-- Whether the report is the failure branch. -/
def JobReport.isFailure : JobReport → Bool
  | .failed _ => true
  | _ => false

/-- `save_dataframe` (lines 120-127): write and report the row count when
the frame is non-empty, otherwise report that no data was returned. -/
def saveDataframe (recs : List JVal) (file : String) : JobReport :=
  if recs.isEmpty then .noData file else .wrote recs.length file

/-- One `try/except` report block of `main`: the pull either returns its
record list or raises (`Except.error`); a raise is caught at the job
boundary and recorded as FAILED for this job only. -/
def runReport (outcome : Except String (List JVal)) (file : String) : JobReport :=
  match outcome with
  | .ok recs => saveDataframe recs file
  | .error m => .failed m

def metaFile : String := "facebook_ads_meta.csv"
def summaryFile : String := "facebook_ads_insights_summary.csv"
def deviceFile : String := "facebook_ads_insights_by_device.csv"
def placementFile : String := "facebook_ads_insights_by_placement.csv"

/-- `main` (lines 130-171): the four report blocks run in sequence, each in
its own `try/except`, each appending its report; no block's failure stops
the ones after it. -/
def mainRun (o1 o2 o3 o4 : Except String (List JVal)) : List JobReport :=
  let log1 := [runReport o1 metaFile]
  let log2 := log1 ++ [runReport o2 summaryFile]
  let log3 := log2 ++ [runReport o3 deviceFile]
  log3 ++ [runReport o4 placementFile]

/-! ## The tabular sink of `pull_metadata` (lines 84-87)

`pull_metadata` hands the raw records straight to `pd.DataFrame(data)`.
The following definitions model pandas' documented normalization of a list
of mappings: the column set is the union of all keys in first-seen order,
and a record missing a column gets a null (NaN) cell under that column. -/

/-- The keys of a record (a non-mapping contributes no keys). -/
def objKeys : JVal → List String
  | .obj kvs => kvs.map Prod.fst
  | _ => []

/-- Append the not-yet-seen keys, preserving first-seen order. -/
def addCols (acc : List String) : List String → List String
  | [] => acc
  | k :: ks => addCols (if acc.contains k then acc else acc ++ [k]) ks

/-- The column set of `pd.DataFrame(recs)`. -/
def dfColumns (recs : List JVal) : List String :=
  recs.foldl (fun acc r => addCols acc (objKeys r)) []

/-- One cell: the record's value under the column, null when absent. -/
def dfCell (r : JVal) (c : String) : JVal :=
  match r with
  | .obj kvs => kvGet kvs c
  | _ => .null

/-- One normalized row of the frame: every column, absent data as null. -/
def dfRow (cols : List String) (r : JVal) : Row :=
  cols.map (fun c => (c, dfCell r c))

/-- All normalized rows of `pd.DataFrame(recs)`. -/
def dfRows (recs : List JVal) : List Row :=
  recs.map (dfRow (dfColumns recs))

/-- The tabular records the metadata job hands to the sink:
`pd.DataFrame(list(paginate(url, params)))`. -/
def pullMetadataDf (srv : List FetchResult) : List Row :=
  dfRows (paginateRun srv).records

/-! ## Helper lemmas -/

/-- Looking a key up past a differently-named head entry. -/
theorem kvGet_cons_ne {key k : String} (w : JVal) (l : List (String × JVal))
    (h : key ≠ k) : kvGet ((k, w) :: l) key = kvGet l key := by
  simp [kvGet, kvGetD, h]

/-- Every element of a `mapOpt` output comes from an element of the input. -/
theorem mapOpt_mem {α β : Type} (f : α → Option β) :
    ∀ (xs : List α) (ys : List β), mapOpt f xs = some ys →
      ∀ y ∈ ys, ∃ x ∈ xs, f x = some y := by
  intro xs
  induction xs with
  | nil =>
    intro ys h y hy
    simp [mapOpt] at h
    subst h
    simp at hy
  | cons x xs ih =>
    intro ys h y hy
    unfold mapOpt at h
    cases hfx : f x with
    | none => rw [hfx] at h; simp at h
    | some y0 =>
      rw [hfx] at h
      cases hrest : mapOpt f xs with
      | none => rw [hrest] at h; simp at h
      | some ys0 =>
        rw [hrest] at h
        simp at h
        subst h
        rcases List.mem_cons.mp hy with rfl | hy0
        · exact ⟨x, List.mem_cons_self x xs, hfx⟩
        · obtain ⟨x', hx', hfx'⟩ := ih ys0 hrest y hy0
          exact ⟨x', List.mem_cons_of_mem x hx', hfx'⟩

/-- `mapOpt` only depends on the function's values on the list. -/
theorem mapOpt_congr {α β : Type} {f g : α → Option β} :
    ∀ (xs : List α), (∀ x ∈ xs, f x = g x) → mapOpt f xs = mapOpt g xs := by
  intro xs
  induction xs with
  | nil => intro; rfl
  | cons x xs ih =>
    intro h
    unfold mapOpt
    rw [h x (List.mem_cons_self x xs), ih (fun a ha => h a (List.mem_cons_of_mem x ha))]

/-- A successfully built row is the dict literal for some object triple. -/
theorem mkRow_inv {i ad c : JVal} {r : Row} (h : mkRow i ad c = some r) :
    ∃ ik ak ck, i = .obj ik ∧ ad = .obj ak ∧ c = .obj ck ∧ r = mkRowObj ik ak ck := by
  unfold mkRow at h
  split at h
  · next ik ak ck => exact ⟨ik, ak, ck, rfl, rfl, rfl, (Option.some.inj h).symm⟩
  · exact absurd h (by simp)

/-- The key list of the row dict literal is the fixed field list. -/
theorem mkRowObj_keys (ik ak ck : List (String × JVal)) :
    (mkRowObj ik ak ck).map Prod.fst = rowFields := rfl

/-- Every successfully built row carries exactly the fixed field list. -/
theorem mkRow_keys {i ad c : JVal} {r : Row} (h : mkRow i ad c = some r) :
    r.map Prod.fst = rowFields := by
  obtain ⟨ik, ak, ck, _, _, _, rfl⟩ := mkRow_inv h
  exact mkRowObj_keys ik ak ck

/-- In a row built from an empty insight element, every insight-derived
field is null. -/
theorem mkRowObj_insight_null (ak ck : List (String × JVal)) :
    ∀ k ∈ insightKeys, kvGet (mkRowObj [] ak ck) k = .null := by
  intro k hk
  simp only [insightKeys, List.mem_cons, List.not_mem_nil, or_false] at hk
  rcases hk with rfl | rfl | rfl | rfl | rfl | rfl | rfl | rfl | rfl | rfl <;> rfl

/-- A successful page with a continuation reference: one request, records
emitted, loop continues with the rest of the scripted server. -/
theorem paginateRun_okPage_next (recs : List JVal) (srv : List FetchResult) :
    paginateRun (okPage recs (some nextUrl) :: srv)
      = ⟨recs ++ (paginateRun srv).records, (paginateRun srv).requests + 1,
         (paginateRun srv).sleepsMs, (paginateRun srv).error⟩ := rfl

/-- A successful terminal page: one request, records emitted, clean stop;
any further scripted responses are never requested. -/
theorem paginateRun_okPage_last (recs : List JVal) (srv : List FetchResult) :
    paginateRun (okPage recs none :: srv) = ⟨recs, 1, [], none⟩ := rfl

/-- One unfolding step of `fetch_ads`'s loop on a response. -/
theorem fetchAdsGo_resp_eq (tries : Nat) (r : HttpResponse) (srv : List FetchResult) :
    fetchAdsGo tries (.response r :: srv)
      = if 400 ≤ r.status then
          (if tries + 1 ≤ 3 then
            ⟨(fetchAdsGo (tries + 1) srv).rows, (fetchAdsGo (tries + 1) srv).requests + 1,
             2 * (tries + 1) :: (fetchAdsGo (tries + 1) srv).sleepsSec,
             (fetchAdsGo (tries + 1) srv).outcome⟩
          else ⟨[], 1, [], .exited 1⟩)
        else
          match faPage r with
          | .fail o => ⟨[], 1, [], o⟩
          | .emitStop rows => ⟨rows, 1, [], .ok⟩
          | .emitNext rows =>
            ⟨rows ++ (fetchAdsGo tries srv).rows, (fetchAdsGo tries srv).requests + 1,
             (fetchAdsGo tries srv).sleepsSec, (fetchAdsGo tries srv).outcome⟩ := rfl

/-! ## Claims -/

/-- Claim C1: for every finite sequence of N pages in which each
non-terminal page carries a continuation reference and the last page
carries none, `paginate` emits every record of every page in page order
with each page's internal order preserved, issues exactly N GET requests,
and terminates after the page without a continuation reference (even when
the transport could serve further responses). -/
theorem paginator_emits_all_pages (pages : List (List JVal))
    (extra : List FetchResult) (h : pages ≠ []) :
    paginateRun (serverOfPages pages ++ extra)
      = ⟨pages.flatten, pages.length, [], none⟩ := by
  induction pages with
  | nil => cases h rfl
  | cons p rest ih =>
    cases rest with
    | nil =>
      rw [show serverOfPages [p] ++ extra = okPage p none :: extra from rfl,
          paginateRun_okPage_last]
      simp
    | cons q rest2 =>
      have hstep : serverOfPages (p :: q :: rest2) ++ extra
          = okPage p (some nextUrl) :: (serverOfPages (q :: rest2) ++ extra) := rfl
      rw [hstep, paginateRun_okPage_next, ih (by simp)]
      simp

/-- Witness for C1 at a concrete two-page server. -/
theorem paginator_emits_all_pages_witness :
    ([[JVal.str "a"], [JVal.str "b"]] : List (List JVal)) ≠ [] ∧
    paginateRun (serverOfPages [[JVal.str "a"], [JVal.str "b"]] ++ [])
      = ⟨[JVal.str "a", JVal.str "b"], 2, [], none⟩ :=
  ⟨List.cons_ne_nil _ _,
    paginator_emits_all_pages [[JVal.str "a"], [JVal.str "b"]] [] (List.cons_ne_nil _ _)⟩

/-- Counterexample to C3 as stated: in `fetch_ads`, the first request fails
with HTTP 500, yet the iteration does not fail: after sleeping 2 seconds the
same page is requested again (2 requests in total) and the run succeeds. -/
theorem fetch_ads_retries_cex :
    fetchAdsRun [.response ⟨500, some (.obj []), "boom"⟩,
                 .response ⟨200, some (.obj [("data", .arr [])]), ""⟩]
      = ⟨[], 2, [2], .ok⟩ := rfl

/-- Claim C3 (amended): `paginate` in `facebook_ads_full_pull.py` does not
retry — it fails the iteration at the first failing request, surfacing the
cause, with no further request; but `fetch_ads` in `facebook_ads_pull.py`
only does so for transport errors, while it retries a response with HTTP
status >= 400, sleeping `2*tries` seconds, with a global budget of 3
retries across the whole pagination, and exits (code 1) on the fourth
failure. -/
theorem paginate_fails_immediately_fetch_ads_retries
    (pages : List (List JVal)) (m : String) (r : HttpResponse)
    (srv : List FetchResult) (tries : Nat)
    (hs : 400 ≤ r.status) (ht : tries < 3) :
    paginateRun (serverChain pages ++ [.transportError m])
        = ⟨pages.flatten, pages.length + 1, [], some (.requestError m)⟩ ∧
    fetchAdsGo tries (.transportError m :: srv) = ⟨[], 1, [], .raisedTransport m⟩ ∧
    fetchAdsGo tries (.response r :: srv)
        = ⟨(fetchAdsGo (tries + 1) srv).rows,
           (fetchAdsGo (tries + 1) srv).requests + 1,
           2 * (tries + 1) :: (fetchAdsGo (tries + 1) srv).sleepsSec,
           (fetchAdsGo (tries + 1) srv).outcome⟩ ∧
    fetchAdsGo 3 (.response r :: srv) = ⟨[], 1, [], .exited 1⟩ := by
  refine ⟨?_, rfl, ?_, ?_⟩
  · induction pages with
    | nil => rfl
    | cons p rest ih =>
      have hstep : serverChain (p :: rest) ++ [FetchResult.transportError m]
          = okPage p (some nextUrl) :: (serverChain rest ++ [.transportError m]) := rfl
      rw [hstep, paginateRun_okPage_next, ih]
      simp
  · rw [fetchAdsGo_resp_eq, if_pos hs, if_pos (by omega : tries + 1 ≤ 3)]
  · rw [fetchAdsGo_resp_eq, if_pos hs, if_neg (by omega : ¬ 3 + 1 ≤ 3)]

/-- Witness for the amended C3 at concrete inputs. -/
theorem paginate_fails_immediately_fetch_ads_retries_witness :
    400 ≤ (500 : Nat) ∧ (0 : Nat) < 3 ∧
    (paginateRun (serverChain [[JVal.str "a"]] ++ [.transportError "timeout"])
        = ⟨[JVal.str "a"], 2, [], some (.requestError "timeout")⟩ ∧
     fetchAdsGo 0 (.transportError "timeout" :: []) = ⟨[], 1, [], .raisedTransport "timeout"⟩ ∧
     fetchAdsGo 0 (.response ⟨500, some (.obj []), "e"⟩ :: [])
        = ⟨(fetchAdsGo 1 []).rows, (fetchAdsGo 1 []).requests + 1,
           2 * 1 :: (fetchAdsGo 1 []).sleepsSec, (fetchAdsGo 1 []).outcome⟩ ∧
     fetchAdsGo 3 (.response ⟨500, some (.obj []), "e"⟩ :: []) = ⟨[], 1, [], .exited 1⟩) :=
  ⟨by omega, by omega,
    paginate_fails_immediately_fetch_ads_retries [[JVal.str "a"]] "timeout"
      ⟨500, some (.obj []), "e"⟩ [] 0 (by decide) (by decide)⟩

/-- Well-shapedness of an HTTP error body for `paginate`'s error handler:
either not decodable as JSON, or a mapping whose `error` member (defaulting
to `{}`) is a mapping. -/
def errBodyOk : Option JVal → Bool
  | none => true
  | some (.obj kvs) =>
    match kvGetD kvs "error" (.obj []) with
    | .obj _ => true
    | _ => false
  | some _ => false

/-- The decoded `error` payload the handler extracts from an error body
(`{}` when the body is not decodable as JSON). -/
def errDetailsOf : Option JVal → List (String × JVal)
  | some (.obj kvs) =>
    match kvGetD kvs "error" (.obj []) with
    | .obj dk => dk
    | _ => []
  | _ => []

/-- Counterexample to C4 as stated: a response with HTTP status 400 whose
body decodes to a JSON array (a non-mapping) is not classified as a
rejection carrying the status code: the error handler itself crashes with
an `AttributeError` (`e.response.json().get(...)` on a list), which replaces
the `HTTPError`. -/
theorem http_error_nonmapping_body_cex :
    paginateRun [.response ⟨400, some (.arr []), "x"⟩]
      = ⟨[], 1, [], some (.pythonError "AttributeError")⟩ ∧
    (paginateRun [.response ⟨400, some (.arr []), "x"⟩]).error.map
        PagError.isRemoteRejected = some false := ⟨rfl, rfl⟩

/-- Claim C4 (amended): for every response with HTTP status in the
4xx/5xx range whose body is either undecodable as JSON or decodes to a
mapping with a mapping (or absent) `error` member, `paginate` classifies
the failure as the re-raised `HTTPError` carrying the status code and the
best-effort decoded error payload, stopping after that one request; the
hint flag for the documented numeric code 100 (invalid breakdown/field
combination) is set exactly when the decoded error code equals 100, making
that sub-case distinguishable.  A 4xx/5xx body decoding to a non-mapping
instead crashes the handler itself (see the counterexample). -/
theorem http_error_classified_remote_rejected (s : Nat) (b : Option JVal)
    (t : String) (srv : List FetchResult)
    (h4 : 400 ≤ s) (h6 : s < 600) (hb : errBodyOk b = true) :
    paginateRun (.response ⟨s, b, t⟩ :: srv)
      = ⟨[], 1, [], some (.remoteRejected s (.obj (errDetailsOf b))
          (isCode100 (kvGet (errDetailsOf b) "code")) t)⟩ ∧
    (isCode100 (kvGet (errDetailsOf b) "code") = true ↔
      kvGet (errDetailsOf b) "code" = .num 100) := by
  constructor
  · have hps : pageStep ⟨s, b, t⟩ = .fail (classifyHttpError ⟨s, b, t⟩) := by
      unfold pageStep
      rw [if_pos ⟨h4, h6⟩]
    have hcl : classifyHttpError ⟨s, b, t⟩
        = .remoteRejected s (.obj (errDetailsOf b))
            (isCode100 (kvGet (errDetailsOf b) "code")) t := by
      cases b with
      | none => rfl
      | some v =>
        cases v with
        | obj kvs =>
          unfold classifyHttpError errDetailsOf
          cases hk : kvGetD kvs "error" (.obj []) with
          | obj dk => simp [hk]
          | null => rw [errBodyOk] at hb; rw [hk] at hb; simp at hb
          | bool b' => rw [errBodyOk] at hb; rw [hk] at hb; simp at hb
          | num n => rw [errBodyOk] at hb; rw [hk] at hb; simp at hb
          | str s' => rw [errBodyOk] at hb; rw [hk] at hb; simp at hb
          | arr xs => rw [errBodyOk] at hb; rw [hk] at hb; simp at hb
        | null => simp [errBodyOk] at hb
        | bool b' => simp [errBodyOk] at hb
        | num n => simp [errBodyOk] at hb
        | str s' => simp [errBodyOk] at hb
        | arr xs => simp [errBodyOk] at hb
    show paginateRun (.response ⟨s, b, t⟩ :: srv) = _
    rw [show paginateRun (FetchResult.response ⟨s, b, t⟩ :: srv)
        = (match pageStep ⟨s, b, t⟩ with
           | .fail e => (⟨[], 1, [], some e⟩ : PagResult)
           | .emitStop recs e => ⟨recs, 1, [], e⟩
           | .emitNext recs =>
             ⟨recs ++ (paginateRun srv).records, (paginateRun srv).requests + 1,
              (paginateRun srv).sleepsMs, (paginateRun srv).error⟩) from rfl,
        hps, hcl]
  · cases hc : kvGet (errDetailsOf b) "code" with
    | num n => simp [isCode100]
    | null => simp [isCode100]
    | bool b' => simp [isCode100]
    | str s' => simp [isCode100]
    | arr xs => simp [isCode100]
    | obj kvs => simp [isCode100]

/-- Witness for the amended C4: HTTP 400 with a decoded error code 100. -/
theorem http_error_classified_remote_rejected_witness :
    400 ≤ (400 : Nat) ∧ (400 : Nat) < 600 ∧
    errBodyOk (some (.obj [("error",
      .obj [("code", .num 100), ("message", .str "bad breakdowns")])])) = true ∧
    (paginateRun [.response ⟨400, some (.obj [("error",
        .obj [("code", .num 100), ("message", .str "bad breakdowns")])]), "t"⟩]
      = ⟨[], 1, [], some (.remoteRejected 400
          (.obj (errDetailsOf (some (.obj [("error",
            .obj [("code", .num 100), ("message", .str "bad breakdowns")])]))))
          (isCode100 (kvGet (errDetailsOf (some (.obj [("error",
            .obj [("code", .num 100), ("message", .str "bad breakdowns")])]))) "code")) "t")⟩ ∧
     (isCode100 (kvGet (errDetailsOf (some (.obj [("error",
        .obj [("code", .num 100), ("message", .str "bad breakdowns")])]))) "code") = true ↔
      kvGet (errDetailsOf (some (.obj [("error",
        .obj [("code", .num 100), ("message", .str "bad breakdowns")])]))) "code" = .num 100)) :=
  ⟨by omega, by omega, rfl,
    http_error_classified_remote_rejected 400
      (some (.obj [("error", .obj [("code", .num 100), ("message", .str "bad breakdowns")])]))
      "t" [] (by omega) (by omega) rfl⟩

/-- Claim C5: every run of `main` produces a report for each of the four
jobs in its fixed list; a failure raised while executing one job is caught
at that job's boundary and recorded as that job's FAILED report only, and
every subsequent (and preceding) job's report is unaffected, so no single
job's failure aborts the batch. -/
theorem orchestrator_isolates_job_failures
    (o1 o2 o3 o4 o2' : Except String (List JVal)) (m : String) :
    (mainRun o1 o2 o3 o4).length = 4 ∧
    mainRun o1 o2 o3 o4
      = [runReport o1 metaFile, runReport o2 summaryFile,
         runReport o3 deviceFile, runReport o4 placementFile] ∧
    (mainRun o1 (Except.error m) o3 o4)[1]? = some (.failed m) ∧
    (mainRun o1 (Except.error m) o3 o4)[0]? = (mainRun o1 o2' o3 o4)[0]? ∧
    (mainRun o1 (Except.error m) o3 o4)[2]? = (mainRun o1 o2' o3 o4)[2]? ∧
    (mainRun o1 (Except.error m) o3 o4)[3]? = (mainRun o1 o2' o3 o4)[3]? :=
  ⟨rfl, rfl, rfl, rfl, rfl, rfl⟩

/-- Counterexample to C8 as stated: a two-page sequence makes `paginate`
issue a continuation request (2 requests in total) but the trace of sleep
calls is empty — there is no inter-page delay of any length, let alone one
of 100-250 ms. -/
theorem no_sleep_before_continuation_cex :
    paginateRun [okPage [JVal.str "r1"] (some nextUrl), okPage [JVal.str "r2"] none]
      = ⟨[JVal.str "r1", JVal.str "r2"], 2, [], none⟩ := rfl

/-- Claim C8 (amended): `paginate` performs no sleep at all — continuation
requests are issued with no inter-page delay; the only sleeping in the
codebase is `fetch_ads`'s retry backoff, which sleeps `2*tries` seconds
after the tries-th failed request (within the retry budget). -/
theorem paginate_never_sleeps (srv : List FetchResult) :
    (paginateRun srv).sleepsMs = [] ∧
    (∀ (tries : Nat) (rest : List FetchResult) (r : HttpResponse),
        400 ≤ r.status → tries < 3 →
        (fetchAdsGo tries (.response r :: rest)).sleepsSec
          = 2 * (tries + 1) :: (fetchAdsGo (tries + 1) rest).sleepsSec) := by
  constructor
  · induction srv with
    | nil => rfl
    | cons fr rest ih =>
      cases fr with
      | transportError m => rfl
      | response r =>
        rw [show paginateRun (FetchResult.response r :: rest)
            = (match pageStep r with
               | .fail e => (⟨[], 1, [], some e⟩ : PagResult)
               | .emitStop recs e => ⟨recs, 1, [], e⟩
               | .emitNext recs =>
                 ⟨recs ++ (paginateRun rest).records, (paginateRun rest).requests + 1,
                  (paginateRun rest).sleepsMs, (paginateRun rest).error⟩) from rfl]
        cases pageStep r with
        | fail e => rfl
        | emitStop recs e => rfl
        | emitNext recs => exact ih
  · intro tries rest r hs ht
    rw [fetchAdsGo_resp_eq, if_pos hs, if_pos (by omega : tries + 1 ≤ 3)]

/-- Witness for the amended C8 at concrete inputs. -/
theorem paginate_never_sleeps_witness :
    (paginateRun []).sleepsMs = [] ∧
    (400 ≤ (500 : Nat) ∧ (0 : Nat) < 3 ∧
     (fetchAdsGo 0 [.response ⟨500, some (.obj []), "x"⟩]).sleepsSec
       = 2 * (0 + 1) :: (fetchAdsGo (0 + 1) []).sleepsSec) :=
  ⟨(paginate_never_sleeps []).1, by omega, by omega,
    (paginate_never_sleeps []).2 0 [] ⟨500, some (.obj []), "x"⟩ (by decide) (by decide)⟩

/-- Claim C9: a job whose extraction completes without error but yields
zero records is reported as "no data" — a success-side report standing for
zero rows, not a failure — while a job that raised before yielding records
is reported FAILED with its cause; the two outcomes are distinguishable,
and a completed extraction is never reported as FAILED. -/
theorem zero_record_job_is_success (f m : String) (recs : List JVal) :
    runReport (Except.ok []) f = .noData f ∧
    (runReport (Except.ok []) f).reportedRows = some 0 ∧
    (runReport (Except.ok []) f).isFailure = false ∧
    runReport (Except.error m) f = .failed m ∧
    (JobReport.failed m).reportedRows = none ∧
    runReport (Except.ok recs) f ≠ .failed m := by
  refine ⟨rfl, rfl, rfl, rfl, rfl, ?_⟩
  unfold runReport saveDataframe
  cases recs with
  | nil => simp
  | cons x xs => simp

/-! ## Well-shapedness of nested members for the flattener

`fetch_ads` calls `.get` on whatever `ad["insights"]`/`ad["creative"]` hold
and iterates the insights `data` member; these predicates state exactly the
shapes its access pattern tolerates. -/

/-- The insights `data` member can be iterated into rows only when it is a
list of mappings. -/
def dataOk : JVal → Bool
  | .arr xs => xs.all isObj
  | _ => false

/-- The `insights` member must be falsy (replaced by `{}`) or a mapping
whose `data` member is falsy (replaced by `[{}]`) or a list of mappings. -/
def insightsOk (v : JVal) : Bool :=
  !v.truthy ||
    (match v with
     | .obj ik => !(kvGet ik "data").truthy || dataOk (kvGet ik "data")
     | _ => false)

/-- The `creative` member must be falsy (replaced by `{}`) or a mapping. -/
def creativeOk (v : JVal) : Bool := !v.truthy || isObj v

/-- The `insights` member is absent/null, or a mapping whose `data` list is
absent, null or empty (claim C10's hypothesis). -/
def insightsEmptyB : JVal → Bool
  | .null => true
  | .obj ik =>
    match kvGet ik "data" with
    | .null => true
    | .arr [] => true
    | _ => false
  | _ => false

/-- The key/value list of the resolved creative
(`ad.get("creative") or {}`) for a well-shaped ad. -/
def creativeKvs (ak : List (String × JVal)) : List (String × JVal) :=
  match kvGet ak "creative" with
  | .obj ck => ck
  | _ => []

/-- The key/value list of the resolved insights mapping
(`ad.get("insights") or {}`) for a well-shaped ad. -/
def insightsKvs (ak : List (String × JVal)) : List (String × JVal) :=
  match kvGet ak "insights" with
  | .obj ik => ik
  | _ => []

/-- Under `creativeOk`, the creative resolution of `fetch_ads` produces the
mapping `creativeKvs`. -/
theorem creative_resolves (ak : List (String × JVal))
    (hC : creativeOk (kvGet ak "creative") = true) :
    (if (kvGet ak "creative").truthy then kvGet ak "creative" else .obj [])
      = .obj (creativeKvs ak) := by
  unfold creativeKvs
  cases hv : kvGet ak "creative" with
  | null => simp [JVal.truthy]
  | obj ck =>
    cases ck with
    | nil => simp [JVal.truthy]
    | cons p l => simp [JVal.truthy]
  | bool b =>
    rw [hv] at hC
    cases b with
    | false => simp [JVal.truthy]
    | true => simp [creativeOk, JVal.truthy, isObj] at hC
  | num n =>
    rw [hv] at hC
    simp only [creativeOk, JVal.truthy, isObj, Bool.or_false] at hC
    simp only [Bool.not_eq_true', bne_eq_false_iff_eq] at hC
    subst hC
    simp [JVal.truthy]
  | str s =>
    rw [hv] at hC
    simp only [creativeOk, JVal.truthy, isObj, Bool.or_false] at hC
    simp only [Bool.not_eq_true', bne_eq_false_iff_eq] at hC
    subst hC
    simp [JVal.truthy]
  | arr xs =>
    rw [hv] at hC
    simp only [creativeOk, JVal.truthy, isObj, Bool.or_false, Bool.not_not] at hC
    simp only [List.isEmpty_eq_true] at hC
    subst hC
    simp [JVal.truthy]

/-- Under `insightsOk`, the insights resolution of `fetch_ads` produces the
mapping `insightsKvs`. -/
theorem insights_resolves (ak : List (String × JVal))
    (hI : insightsOk (kvGet ak "insights") = true) :
    (if (kvGet ak "insights").truthy then kvGet ak "insights" else .obj [])
      = .obj (insightsKvs ak) := by
  unfold insightsKvs
  cases hv : kvGet ak "insights" with
  | null => simp [JVal.truthy]
  | obj ik =>
    cases ik with
    | nil => simp [JVal.truthy]
    | cons p l => simp [JVal.truthy]
  | bool b =>
    rw [hv] at hI
    cases b with
    | false => simp [JVal.truthy]
    | true => simp [insightsOk, JVal.truthy] at hI
  | num n =>
    rw [hv] at hI
    simp only [insightsOk, JVal.truthy, Bool.or_false] at hI
    simp only [Bool.not_eq_true', bne_eq_false_iff_eq] at hI
    subst hI
    simp [JVal.truthy]
  | str s =>
    rw [hv] at hI
    simp only [insightsOk, JVal.truthy, Bool.or_false] at hI
    simp only [Bool.not_eq_true', bne_eq_false_iff_eq] at hI
    subst hI
    simp [JVal.truthy]
  | arr xs =>
    rw [hv] at hI
    simp only [insightsOk, JVal.truthy, Bool.or_false, Bool.not_not] at hI
    simp only [List.isEmpty_eq_true] at hI
    subst hI
    simp [JVal.truthy]

/-- Under the shape hypotheses, `flattenAd` on a mapping reduces to
iterating the resolved data list with the resolved creative. -/
theorem flattenAd_obj (ak : List (String × JVal))
    (hI : insightsOk (kvGet ak "insights") = true)
    (hC : creativeOk (kvGet ak "creative") = true) :
    flattenAd (.obj ak)
      = match pyIter (if (kvGet (insightsKvs ak) "data").truthy
                      then kvGet (insightsKvs ak) "data" else .arr [.obj []]) with
        | some items => mapOpt (fun i => mkRow i (.obj ak) (.obj (creativeKvs ak))) items
        | none => none := by
  rw [show flattenAd (.obj ak)
      = (match (if (kvGet ak "insights").truthy then kvGet ak "insights" else .obj []) with
         | .obj ik =>
           match pyIter (if (kvGet ik "data").truthy then kvGet ik "data" else .arr [.obj []]) with
           | some items =>
             mapOpt (fun i => mkRow i (.obj ak)
               (if (kvGet ak "creative").truthy then kvGet ak "creative" else .obj [])) items
           | none => none
         | _ => none) from rfl,
      insights_resolves ak hI, creative_resolves ak hC]

/-- Master characterization: for a well-shaped ad mapping, `flattenAd`
iterates a non-empty list of insight mappings (the replaced `[{}]` when the
insights data is absent or empty), building each row with the resolved
creative. -/
theorem flattenAd_eq_rows (ak : List (String × JVal))
    (hI : insightsOk (kvGet ak "insights") = true)
    (hC : creativeOk (kvGet ak "creative") = true) :
    ∃ items : List JVal, (∀ i ∈ items, isObj i = true) ∧ items ≠ [] ∧
      (insightsEmptyB (kvGet ak "insights") = true → items = [.obj []]) ∧
      flattenAd (.obj ak)
        = mapOpt (fun i => mkRow i (.obj ak) (.obj (creativeKvs ak))) items := by
  rw [flattenAd_obj ak hI hC]
  cases hdt : (kvGet (insightsKvs ak) "data").truthy with
  | false =>
    refine ⟨[.obj []], by simp [isObj], by simp, fun _ => rfl, ?_⟩
    rfl
  | true =>
    have hik : insightsKvs ak ≠ [] := by
      intro h
      rw [h] at hdt
      simp [kvGet, kvGetD, JVal.truthy] at hdt
    obtain ⟨ik, hv⟩ : ∃ ik, kvGet ak "insights" = .obj ik := by
      cases hv : kvGet ak "insights" with
      | obj ik => exact ⟨ik, rfl⟩
      | null => exact absurd (by simp [insightsKvs, hv]) hik
      | bool b => exact absurd (by simp [insightsKvs, hv]) hik
      | num n => exact absurd (by simp [insightsKvs, hv]) hik
      | str s => exact absurd (by simp [insightsKvs, hv]) hik
      | arr xs => exact absurd (by simp [insightsKvs, hv]) hik
    have hkvs : insightsKvs ak = ik := by simp [insightsKvs, hv]
    rw [hkvs] at hdt hik ⊢
    have ht : (JVal.obj ik).truthy = true := by
      cases ik with
      | nil => exact absurd rfl hik
      | cons p l => rfl
    rw [hv] at hI
    unfold insightsOk at hI
    rw [ht] at hI
    simp only [Bool.not_true, Bool.false_or] at hI
    rw [hdt] at hI
    simp only [Bool.not_true, Bool.false_or] at hI
    -- hI : dataOk (kvGet ik "data") = true
    cases hd : kvGet ik "data" with
    | arr xs =>
      rw [hd] at hI hdt
      simp only [dataOk, List.all_eq_true] at hI
      have hxs : xs ≠ [] := by
        intro h
        rw [h] at hdt
        simp [JVal.truthy] at hdt
      refine ⟨xs, hI, hxs, ?_, ?_⟩
      · intro hE
        exfalso
        rw [hv] at hE
        simp only [insightsEmptyB] at hE
        rw [hd] at hE
        cases xs with
        | nil => exact hxs rfl
        | cons x l => simp at hE
      · rfl
    | null => rw [hd] at hI; simp [dataOk] at hI
    | bool b => rw [hd] at hI; simp [dataOk] at hI
    | num n => rw [hd] at hI; simp [dataOk] at hI
    | str s => rw [hd] at hI; simp [dataOk] at hI
    | obj kvs2 => rw [hd] at hI; simp [dataOk] at hI

/-- Building rows over a list of insight mappings always succeeds, one row
per element. -/
theorem mapOpt_mkRow_some (ak ck : List (String × JVal)) :
    ∀ items : List JVal, (∀ i ∈ items, isObj i = true) →
      ∃ rows, mapOpt (fun i => mkRow i (.obj ak) (.obj ck)) items = some rows ∧
        rows.length = items.length := by
  intro items
  induction items with
  | nil => exact fun _ => ⟨[], rfl, rfl⟩
  | cons x xs ih =>
    intro h
    obtain ⟨rows, hr, hl⟩ := ih (fun i hi => h i (List.mem_cons_of_mem x hi))
    obtain ⟨ikx, rfl⟩ : ∃ ik, x = JVal.obj ik := by
      have hx := h x (List.mem_cons_self x xs)
      cases x with
      | obj ik => exact ⟨ik, rfl⟩
      | null => simp [isObj] at hx
      | bool b => simp [isObj] at hx
      | num n => simp [isObj] at hx
      | str s => simp [isObj] at hx
      | arr ys => simp [isObj] at hx
    refine ⟨mkRowObj ikx ak ck :: rows, ?_, by simp [hl]⟩
    unfold mapOpt
    rw [hr]
    rfl

/-- Counterexample to C2 as stated: the record `{"creative": 7}` is a
mapping, yet the flattener fatally fails on it (`(7).get("title")` is an
`AttributeError`), so a non-mapping input is not the only fatal contract
violation. -/
theorem flattener_mapping_input_fatal_cex :
    isObj (.obj [("creative", JVal.num 7)]) = true ∧
    flattenAd (.obj [("creative", JVal.num 7)]) = none := ⟨rfl, rfl⟩

/-- Claim C2 (amended): for every input record that is a mapping whose
`insights` and `creative` members, where present and truthy, are
well-shaped (`insightsOk`/`creativeOk`), the flattener produces at least
one fully-shaped flat record carrying the fixed field set and never raises;
in particular, when `creative` is entirely absent (or null) the
creative-derived fields are null, and when `insights` is entirely absent
(or null) the single row has every insight-derived field null.  (The
nested `adset`/`campaign`/`object_story_spec` members of the claim are
never dereferenced by this flattener, so their absence cannot affect it.)
Fatal contract violations are a non-mapping input, or a mapping whose
present `insights`/`creative` member is a truthy non-mapping (see the
counterexample). -/
theorem flattener_null_safe (ak : List (String × JVal))
    (hI : insightsOk (kvGet ak "insights") = true)
    (hC : creativeOk (kvGet ak "creative") = true) :
    ∃ rows, flattenAd (.obj ak) = some rows ∧ rows ≠ [] ∧
      (∀ r ∈ rows, r.map Prod.fst = rowFields) ∧
      (kvGet ak "creative" = .null →
        ∀ r ∈ rows, kvGet r "headline" = .null ∧ kvGet r "body" = .null) ∧
      (kvGet ak "insights" = .null →
        ∃ ro, rows = [ro] ∧ ∀ k ∈ insightKeys, kvGet ro k = .null) := by
  obtain ⟨items, hall, hne, hempty, heq⟩ := flattenAd_eq_rows ak hI hC
  obtain ⟨rows, hrows, hlen⟩ := mapOpt_mkRow_some ak (creativeKvs ak) items hall
  refine ⟨rows, heq.trans hrows, ?_, ?_, ?_, ?_⟩
  · intro h
    rw [h] at hlen
    exact hne (List.length_eq_zero.mp hlen.symm)
  · intro r hr
    obtain ⟨i, _, hi⟩ := mapOpt_mem _ items rows hrows r hr
    exact mkRow_keys hi
  · intro hcnull r hr
    obtain ⟨i, _, hi⟩ := mapOpt_mem _ items rows hrows r hr
    obtain ⟨ik2, ak2, ck2, _, _, hceq, hreq⟩ := mkRow_inv hi
    have hck2 : creativeKvs ak = ck2 := by injection hceq
    have hckn : creativeKvs ak = [] := by simp [creativeKvs, hcnull]
    rw [hckn] at hck2
    subst hreq
    rw [show ck2 = [] from hck2.symm]
    exact ⟨rfl, rfl⟩
  · intro hinull
    have hempty' : items = [.obj []] := hempty (by rw [hinull]; rfl)
    subst hempty'
    have hrows' : rows = [mkRowObj [] ak (creativeKvs ak)] := by
      rw [show mapOpt (fun i => mkRow i (.obj ak) (.obj (creativeKvs ak))) [JVal.obj []]
          = some [mkRowObj [] ak (creativeKvs ak)] from rfl] at hrows
      exact (Option.some.inj hrows).symm
    subst hrows'
    exact ⟨_, rfl, mkRowObj_insight_null ak (creativeKvs ak)⟩

/-- Witness for the amended C2: a mapping with none of the optional nested
members present. -/
theorem flattener_null_safe_witness :
    insightsOk (kvGet [("name", JVal.str "x")] "insights") = true ∧
    creativeOk (kvGet [("name", JVal.str "x")] "creative") = true ∧
    (∃ rows, flattenAd (.obj [("name", JVal.str "x")]) = some rows ∧ rows ≠ [] ∧
      (∀ r ∈ rows, r.map Prod.fst = rowFields) ∧
      (kvGet [("name", JVal.str "x")] "creative" = .null →
        ∀ r ∈ rows, kvGet r "headline" = .null ∧ kvGet r "body" = .null) ∧
      (kvGet [("name", JVal.str "x")] "insights" = .null →
        ∃ ro, rows = [ro] ∧ ∀ k ∈ insightKeys, kvGet ro k = .null)) :=
  ⟨rfl, rfl, flattener_null_safe [("name", JVal.str "x")] rfl rfl⟩

/-- Unconditional unfolding of `flattenAd` on a mapping. -/
theorem flattenAd_obj_eq (ak : List (String × JVal)) :
    flattenAd (.obj ak)
      = match (if (kvGet ak "insights").truthy then kvGet ak "insights" else .obj []) with
        | .obj ik =>
          (match pyIter (if (kvGet ik "data").truthy then kvGet ik "data" else .arr [.obj []]) with
           | some items =>
             mapOpt (fun i => mkRow i (.obj ak)
               (if (kvGet ak "creative").truthy then kvGet ak "creative" else .obj [])) items
           | none => none)
        | _ => none := rfl

/-- `flattenAd` on a mapping whose resolved insights are the mapping `ik`. -/
theorem flattenAd_obj_ik (ak ik : List (String × JVal))
    (h : (if (kvGet ak "insights").truthy then kvGet ak "insights" else .obj []) = .obj ik) :
    flattenAd (.obj ak)
      = match pyIter (if (kvGet ik "data").truthy then kvGet ik "data" else .arr [.obj []]) with
        | some items =>
          mapOpt (fun i => mkRow i (.obj ak)
            (if (kvGet ak "creative").truthy then kvGet ak "creative" else .obj [])) items
        | none => none := by
  rw [flattenAd_obj_eq, h]

/-- `flattenAd` on a mapping whose resolved insights are not a mapping
(a truthy non-mapping `insights` member): the `.get("data")` call raises. -/
theorem flattenAd_obj_nonmap (ak : List (String × JVal)) (s : JVal)
    (h : (if (kvGet ak "insights").truthy then kvGet ak "insights" else .obj []) = s)
    (hs : isObj s = false) :
    flattenAd (.obj ak) = none := by
  rw [flattenAd_obj_eq, h]
  cases s with
  | obj k => simp [isObj] at hs
  | null => rfl
  | bool b => rfl
  | num n => rfl
  | str s2 => rfl
  | arr xs => rfl

/-- A one-card carousel creative. -/
def cexAttsA : List JVal := [.obj [("name", .str "card1")]]

/-- A two-card carousel creative differing from `cexAttsA`. -/
def cexAttsB : List JVal :=
  [.obj [("name", .str "card1")], .obj [("name", .str "card2")]]

/-- An ad whose creative carries the one-card `child_attachments` list. -/
def cexAdA : JVal :=
  .obj [("name", .str "Ad"),
        ("creative", .obj [("title", .str "T"), ("child_attachments", .arr cexAttsA)])]

/-- The same ad with the two-card `child_attachments` list. -/
def cexAdB : JVal :=
  .obj [("name", .str "Ad"),
        ("creative", .obj [("title", .str "T"), ("child_attachments", .arr cexAttsB)])]

/-- Counterexample to C6 as stated: two records whose creatives carry
different non-empty `child_attachments` lists flatten to identical output
whose only fields are the fixed eighteen, so no field of the output (let
alone a serialized side field, which does not exist) can be decoded back
to the original list — the flattener drops carousel data outright. -/
theorem child_attachments_not_round_tripped_cex :
    flattenAd cexAdA = flattenAd cexAdB ∧
    cexAttsA ≠ cexAttsB ∧
    Option.map (fun rows => rows.map (fun (r : Row) => r.map Prod.fst)) (flattenAd cexAdA)
      = some [rowFields] := by
  refine ⟨rfl, ?_, rfl⟩
  intro h
  have hlen := congrArg List.length h
  simp [cexAttsA, cexAttsB] at hlen

/-- Two ads differing only in their (mapping) creative flatten identically
whenever the resolved insights are not a mapping: both runs crash the same
way before reading the creative. -/
theorem flattenAd_creative_nonmap_eq (ak c1 c2 : List (String × JVal)) (s : JVal)
    (hs : (if (kvGet ak "insights").truthy then kvGet ak "insights" else JVal.obj []) = s)
    (hno : isObj s = false) :
    flattenAd (.obj (("creative", .obj c1) :: ak))
      = flattenAd (.obj (("creative", .obj c2) :: ak)) :=
  (flattenAd_obj_nonmap (("creative", JVal.obj c1) :: ak) s hs hno).trans
    ((flattenAd_obj_nonmap (("creative", JVal.obj c2) :: ak) s hs hno).symm)

/-- Claim C6 (amended): the flattener reads only `title` and `body` from
the creative and drops `child_attachments` entirely — a record whose
creative carries a (non-empty or empty) `child_attachments` list flattens
exactly as the same record without it, so no side field is written and the
list is not recoverable from the flat output. -/
theorem flattener_drops_child_attachments (ak ck : List (String × JVal)) (v : JVal) :
    flattenAd (.obj (("creative", .obj (("child_attachments", v) :: ck)) :: ak))
      = flattenAd (.obj (("creative", .obj ck) :: ak)) := by
  cases ck with
  | nil =>
    cases hs : (if (kvGet ak "insights").truthy then kvGet ak "insights" else JVal.obj [])
    case obj ik =>
      rw [flattenAd_obj_ik (("creative", JVal.obj [("child_attachments", v)]) :: ak) ik hs,
          flattenAd_obj_ik (("creative", JVal.obj []) :: ak) ik hs]
      cases hp : pyIter (if (kvGet ik "data").truthy then kvGet ik "data"
                         else JVal.arr [JVal.obj []]) with
      | none => rfl
      | some items => exact mapOpt_congr items (fun i _ => by cases i <;> rfl)
    all_goals exact flattenAd_creative_nonmap_eq ak _ _ _ hs rfl
  | cons p l =>
    cases hs : (if (kvGet ak "insights").truthy then kvGet ak "insights" else JVal.obj [])
    case obj ik =>
      rw [flattenAd_obj_ik
            (("creative", JVal.obj (("child_attachments", v) :: p :: l)) :: ak) ik hs,
          flattenAd_obj_ik (("creative", JVal.obj (p :: l)) :: ak) ik hs]
      cases hp : pyIter (if (kvGet ik "data").truthy then kvGet ik "data"
                         else JVal.arr [JVal.obj []]) with
      | none => rfl
      | some items => exact mapOpt_congr items (fun i _ => by cases i <;> rfl)
    all_goals exact flattenAd_creative_nonmap_eq ak _ _ _ hs rfl

/-- Claim C7: within a job, every produced flat record has exactly the
same field-name list — every `fetch_ads` row carries the fixed eighteen
fields (absent source data becomes a null value under the field name, via
the null-defaulting lookups in the dict literal), and every row of the
metadata job's tabular frame carries the frame's column list. -/
theorem flat_records_uniform_schema :
    (∀ (ad : JVal) (rows : List Row) (r : Row),
        flattenAd ad = some rows → r ∈ rows → r.map Prod.fst = rowFields) ∧
    (∀ (srv : List FetchResult) (r r' : Row),
        r ∈ pullMetadataDf srv → r' ∈ pullMetadataDf srv →
        r.map Prod.fst = r'.map Prod.fst) := by
  constructor
  · intro ad rows r hf hr
    cases ad with
    | obj ak =>
      rw [flattenAd_obj_eq] at hf
      split at hf
      · split at hf
        · obtain ⟨i, _, hi⟩ := mapOpt_mem _ _ rows hf r hr
          exact mkRow_keys hi
        · exact absurd hf (by simp)
      · exact absurd hf (by simp)
    | null => simp [flattenAd] at hf
    | bool b => simp [flattenAd] at hf
    | num n => simp [flattenAd] at hf
    | str s => simp [flattenAd] at hf
    | arr xs => simp [flattenAd] at hf
  · intro srv r r' hr hr'
    unfold pullMetadataDf dfRows at hr hr'
    obtain ⟨rec, _, hrec⟩ := List.mem_map.mp hr
    obtain ⟨rec', _, hrec'⟩ := List.mem_map.mp hr'
    rw [← hrec, ← hrec']
    simp [dfRow, List.map_map, Function.comp]

/-- Witness for C7 at a concrete input (the empty ad mapping). -/
theorem flat_records_uniform_schema_witness :
    flattenAd (.obj []) = some [mkRowObj [] [] []] ∧
    (mkRowObj [] [] []).map Prod.fst = rowFields :=
  ⟨rfl, flat_records_uniform_schema.1 (.obj []) [mkRowObj [] [] []] (mkRowObj [] [] [])
    rfl (List.mem_singleton.mpr rfl)⟩

/-- Claim C10: for every ad mapping whose `insights` member is absent,
null, or a mapping with an absent, null or empty `data` list (and whose
`creative` member is well-shaped), `fetch_ads` emits exactly one flat row
for that ad, with every insight-derived field null and the ad-level and
creative-level fields taken from the ad object as usual. -/
theorem missing_insights_single_null_row (ak : List (String × JVal))
    (hE : insightsEmptyB (kvGet ak "insights") = true)
    (hC : creativeOk (kvGet ak "creative") = true) :
    ∃ ro, flattenAd (.obj ak) = some [ro] ∧
      (∀ k ∈ insightKeys, kvGet ro k = .null) ∧
      kvGet ro "ad_id" = kvGet ak "ad_id" ∧
      kvGet ro "ad_name" = kvGet ak "name" ∧
      kvGet ro "adset_id" = kvGet ak "adset_id" ∧
      kvGet ro "adset_name" = kvGet ak "adset_name" ∧
      kvGet ro "campaign_id" = kvGet ak "campaign_id" ∧
      kvGet ro "campaign_name" = kvGet ak "campaign_name" ∧
      kvGet ro "headline" = kvGet (creativeKvs ak) "title" ∧
      kvGet ro "body" = kvGet (creativeKvs ak) "body" := by
  have hI : insightsOk (kvGet ak "insights") = true := by
    cases hv : kvGet ak "insights" with
    | null => simp [insightsOk, JVal.truthy]
    | obj ik =>
      rw [hv] at hE
      simp only [insightsEmptyB] at hE
      cases hd : kvGet ik "data" with
      | null => simp [insightsOk, JVal.truthy, hd]
      | arr xs =>
        rw [hd] at hE
        cases xs with
        | nil => simp [insightsOk, JVal.truthy, hd]
        | cons x l => simp at hE
      | bool b => rw [hd] at hE; simp at hE
      | num n => rw [hd] at hE; simp at hE
      | str s => rw [hd] at hE; simp at hE
      | obj k2 => rw [hd] at hE; simp at hE
    | bool b => rw [hv] at hE; simp [insightsEmptyB] at hE
    | num n => rw [hv] at hE; simp [insightsEmptyB] at hE
    | str s => rw [hv] at hE; simp [insightsEmptyB] at hE
    | arr xs => rw [hv] at hE; simp [insightsEmptyB] at hE
  obtain ⟨items, hall, hne, hempty, heq⟩ := flattenAd_eq_rows ak hI hC
  have hitems := hempty hE
  subst hitems
  refine ⟨mkRowObj [] ak (creativeKvs ak), ?_, mkRowObj_insight_null ak _,
    rfl, rfl, rfl, rfl, rfl, rfl, rfl, rfl⟩
  rw [heq]
  rfl

/-- Witness for C10: an ad with only an `ad_id` and no `insights` at all. -/
theorem missing_insights_single_null_row_witness :
    insightsEmptyB (kvGet [("ad_id", JVal.str "a1")] "insights") = true ∧
    creativeOk (kvGet [("ad_id", JVal.str "a1")] "creative") = true ∧
    (∃ ro, flattenAd (.obj [("ad_id", JVal.str "a1")]) = some [ro] ∧
      (∀ k ∈ insightKeys, kvGet ro k = .null) ∧
      kvGet ro "ad_id" = kvGet [("ad_id", JVal.str "a1")] "ad_id" ∧
      kvGet ro "ad_name" = kvGet [("ad_id", JVal.str "a1")] "name" ∧
      kvGet ro "adset_id" = kvGet [("ad_id", JVal.str "a1")] "adset_id" ∧
      kvGet ro "adset_name" = kvGet [("ad_id", JVal.str "a1")] "adset_name" ∧
      kvGet ro "campaign_id" = kvGet [("ad_id", JVal.str "a1")] "campaign_id" ∧
      kvGet ro "campaign_name" = kvGet [("ad_id", JVal.str "a1")] "campaign_name" ∧
      kvGet ro "headline" = kvGet (creativeKvs [("ad_id", JVal.str "a1")]) "title" ∧
      kvGet ro "body" = kvGet (creativeKvs [("ad_id", JVal.str "a1")]) "body") :=
  ⟨rfl, rfl, missing_insights_single_null_row [("ad_id", JVal.str "a1")] rfl rfl⟩
